import Mathlib

/-!
Shallow embedding of the configuration resolver and the persisted data
model of the `algo-trading` repository (`src/algo_trading/core/config.py`,
`src/algo_trading/db/models.py`, `src/algo_trading/db/init_db.py`),
together with theorems settling the frozen claims about them.

Python runtime values that flow through the configuration code are
modelled by the inductive `Val`; Python `dict`s are modelled as
association lists whose key order is insertion order, matching CPython
dict semantics (`alist_get` is `dict.get`, `alist_set` is item
assignment keeping the original position of an existing key).
-/

/-- A Python runtime value as the configuration code sees one:
`None`, a bool, an int, a string, a list, or a dict; `method a` is the
opaque non-data attribute object (a bound method or pydantic internal)
that Python attribute resolution yields for the non-field attribute
name `a` of the settings model. Such an object is truthy, is not equal
to `None`, `""` or `[]`, and is not a YAML mapping. -/
inductive Val where
  | none : Val
  | bool : Bool → Val
  | int : Int → Val
  | str : String → Val
  | list : List Val → Val
  | dict : List (String × Val) → Val
  | method : String → Val

/-- An association list modelling a Python `dict` with string keys. -/
abbrev PyDict := List (String × Val)

/-- Python truthiness of a `Val` (`bool(v)`): `None`, `False`, `0`, `""`,
`[]` and `{}` are falsy, everything else truthy. -/
def Val.truthy : Val → Bool
  | .none => false
  | .bool b => b
  | .int n => n != 0
  | .str s => s != ""
  | .list xs => !xs.isEmpty
  | .dict xs => !xs.isEmpty
  | .method _ => true

/-- Whether `v` is a member of the Python tuple `(None, "", [])` under
Python `==` (distinct types such as `False` or `0` compare unequal to
each of the three, and `{} == []` is `False`). -/
def Val.isEmptyish : Val → Bool
  | .none => true
  | .str s => s == ""
  | .list xs => xs.isEmpty
  | _ => false

/-- Whether `v` is Python `None` (the `v is not None` test, negated). -/
def Val.isNone : Val → Bool
  | .none => true
  | _ => false

/-- Whether `v` is a Python `dict` (`isinstance(v, dict)`). -/
def Val.isDict : Val → Bool
  | .dict _ => true
  | _ => false

/-- `m.get(k)` on a Python dict modelled as an association list. -/
def alist_get (m : PyDict) (k : String) : Option Val :=
  (m.find? (fun p => p.1 == k)).map Prod.snd

/-- `m[k] = v` on a Python dict modelled as an association list: an
existing key keeps its position and gets the new value, a new key is
appended at the end (CPython insertion-order semantics). -/
def alist_set (m : PyDict) (k : String) (v : Val) : PyDict :=
  if m.any (fun p => p.1 == k) then
    m.map (fun p => if p.1 == k then (k, v) else p)
  else
    m ++ [(k, v)]

/-- `m.update(l)` on Python dicts: assign every item of `l` in order. -/
def alist_update (m : PyDict) (l : PyDict) : PyDict :=
  l.foldl (fun acc p => alist_set acc p.1 p.2) m

/-- ASCII lowercasing of one character, as Python `str.lower()` acts on
the ASCII configuration keys used by this code. -/
def lowerChar (c : Char) : Char :=
  if 'A' ≤ c ∧ c ≤ 'Z' then Char.ofNat (c.toNat + 32) else c

/-- `key.lower()` of Python, restricted to the ASCII alphabet that all
recognized configuration keys use. -/
def lower (s : String) : String :=
  ⟨s.data.map lowerChar⟩

/-- The pydantic `Settings` object of `config.py`: one field per
environment-bound setting, with the declared defaults. A value of
`Option.none` in an `Option String` field models the Python `None` of an
unset `Optional[str]` setting. -/
structure Settings where
  app_env : String := "development"
  debug : Bool := false
  host : String := "0.0.0.0"
  port : Int := 8000
  log_level : String := "INFO"
  database_url : Option String := Option.none
  database_echo : Bool := false
  dhan_base_url : Option String := Option.none
  dhan_trading_client_id : Option String := Option.none
  dhan_trading_access_token : Option String := Option.none
  dhan_data_client_id : Option String := Option.none
  dhan_data_access_token : Option String := Option.none
  dhan_sandbox : Bool := true
  telegram_bot_token : Option String := Option.none
  telegram_chat_id : Option String := Option.none
  secret_key : Option String := Option.none

/-- Lift an `Optional[str]` settings field to a `Val`. -/
def optStr : Option String → Val
  | Option.none => Val.none
  | Option.some s => Val.str s

/-- `self._settings.dict()` of pydantic: the field name/value pairs in
declaration order. -/
def Settings.dict (s : Settings) : PyDict :=
  [("app_env", Val.str s.app_env),
   ("debug", Val.bool s.debug),
   ("host", Val.str s.host),
   ("port", Val.int s.port),
   ("log_level", Val.str s.log_level),
   ("database_url", optStr s.database_url),
   ("database_echo", Val.bool s.database_echo),
   ("dhan_base_url", optStr s.dhan_base_url),
   ("dhan_trading_client_id", optStr s.dhan_trading_client_id),
   ("dhan_trading_access_token", optStr s.dhan_trading_access_token),
   ("dhan_data_client_id", optStr s.dhan_data_client_id),
   ("dhan_data_access_token", optStr s.dhan_data_access_token),
   ("dhan_sandbox", Val.bool s.dhan_sandbox),
   ("telegram_bot_token", optStr s.telegram_bot_token),
   ("telegram_chat_id", optStr s.telegram_chat_id),
   ("secret_key", optStr s.secret_key)]

/-- The attribute names the `Settings` object declares (its fields). -/
def settingsAttrNames : List String :=
  ["app_env", "debug", "host", "port", "log_level",
   "database_url", "database_echo",
   "dhan_base_url", "dhan_trading_client_id", "dhan_trading_access_token",
   "dhan_data_client_id", "dhan_data_access_token", "dhan_sandbox",
   "telegram_bot_token", "telegram_chat_id", "secret_key"]

/-- The non-underscore class-attribute names of a pydantic v1
`BaseSettings` model that instance attribute access can resolve after
the field values: the public and deprecated `BaseModel` methods. A
lookup of one of these returns the bound method, not a field value.
Capitalized class attributes (`Config`) are unreachable through
`get_env`, which lowercases its key first. -/
def settingsClassAttrNames : List String :=
  ["construct", "copy", "dict", "fields", "from_orm", "json",
   "parse_file", "parse_obj", "parse_raw", "schema", "schema_json",
   "to_string", "update_forward_refs", "validate"]

/-- Whether a name begins with an underscore (Python dunder, private
and pydantic-internal attribute names all do). -/
def isUnderscoreInitial (a : String) : Bool :=
  a.data.head? == some '_'

/-- `getattr(settings, attr)` as Python resolves it on a pydantic v1
model instance: first the instance field values (the declared
settings), then the class attributes — the public methods listed in
`settingsClassAttrNames`, each resolving to its bound-method object.
Underscore-initial names (Python/pydantic internals such as
`__fields__`, `__dict__`, `_build_values`) are conservatively modelled
as resolving to an attribute object as well; no theorem below depends
on the value resolved for an underscore-initial name. Every remaining
name is not an attribute, so resolution fails and `getattr` falls back
to its third argument (`Option.none` here, the caller's default). -/
def Settings.getattr (s : Settings) (attr : String) : Option Val :=
  if attr = "app_env" then some (Val.str s.app_env)
  else if attr = "debug" then some (Val.bool s.debug)
  else if attr = "host" then some (Val.str s.host)
  else if attr = "port" then some (Val.int s.port)
  else if attr = "log_level" then some (Val.str s.log_level)
  else if attr = "database_url" then some (optStr s.database_url)
  else if attr = "database_echo" then some (Val.bool s.database_echo)
  else if attr = "dhan_base_url" then some (optStr s.dhan_base_url)
  else if attr = "dhan_trading_client_id" then some (optStr s.dhan_trading_client_id)
  else if attr = "dhan_trading_access_token" then some (optStr s.dhan_trading_access_token)
  else if attr = "dhan_data_client_id" then some (optStr s.dhan_data_client_id)
  else if attr = "dhan_data_access_token" then some (optStr s.dhan_data_access_token)
  else if attr = "dhan_sandbox" then some (Val.bool s.dhan_sandbox)
  else if attr = "telegram_bot_token" then some (optStr s.telegram_bot_token)
  else if attr = "telegram_chat_id" then some (optStr s.telegram_chat_id)
  else if attr = "secret_key" then some (optStr s.secret_key)
  else if attr ∈ settingsClassAttrNames then some (Val.method attr)
  else if isUnderscoreInitial attr then some (Val.method attr)
  else Option.none

/-- The `Config` wrapper of `config.py`: pydantic settings plus the
loaded YAML mapping. -/
structure Config where
  _settings : Settings
  _yaml : PyDict

/-- `Config.get_env(key, default)`: normalize the key to lower case and
read the settings attribute of that name, falling back to `default`
(`getattr(self._settings, key.lower(), default)`). -/
def Config.get_env (c : Config) (key : String) (default : Val) : Val :=
  match c._settings.getattr (lower key) with
  | some v => v
  | Option.none => default

/-- `Config.settings_dict()`: the pydantic settings as a dict. -/
def Config.settings_dict (c : Config) : PyDict :=
  c._settings.dict

/-- `Config.get(section, key, default)`: `self._yaml.get(section, {})`,
then `default` unless that value is a dict, else `section_dict.get(key,
default)`. -/
def Config.get (c : Config) (sect : String) (key : String) (default : Val) : Val :=
  match (alist_get c._yaml sect).getD (Val.dict []) with
  | .dict m => (alist_get m key).getD default
  | _ => default

/-- `Config.get_section(section, default)`: `self._yaml.get(section,
default)`. -/
def Config.get_section (c : Config) (sect : String) (default : Val) : Val :=
  (alist_get c._yaml sect).getD default

/-- `Config.__getitem__(key)`: the combined lookup. The env-backed value
is returned unless it is in `(None, "", [])`; otherwise the top-level
YAML entry (`self._yaml.get(key)`, i.e. `None` when absent). -/
def Config.getitem (c : Config) (key : String) : Val :=
  let env_val := c.get_env key Val.none
  if env_val.isEmptyish then (alist_get c._yaml key).getD Val.none
  else env_val

/-- The keys of the non-`None` environment-bound settings: the keys the
`to_dict` comprehension `{k: v for k, v in self._settings.dict().items()
if v is not None}` keeps. -/
def nonNullEnvKeys (s : Settings) : List String :=
  ((s.dict).filter (fun p => !p.2.isNone)).map Prod.fst

/-- `Config.to_dict()`: start from a copy of the YAML dict and update it
with every non-`None` settings item, so the environment wins on a key
collision. -/
def Config.to_dict (c : Config) : PyDict :=
  alist_update c._yaml ((c._settings.dict).filter (fun p => !p.2.isNone))

/-- The outcome of attempting to read and parse the YAML file at the
configured path: the file may be missing (`not path.exists()`), opening
or reading it may raise, `yaml.safe_load` may raise, or parsing may
succeed. `parsed Option.none` models a falsy parse result (an empty or
all-comment file, where `safe_load` returns `None`); `parsed (some m)`
models a parsed top-level mapping `m`. -/
inductive FileOutcome where
  | missing : FileOutcome
  | readError : FileOutcome
  | parseError : FileOutcome
  | parsed : Option PyDict → FileOutcome

/-- `_load_yaml(path)` over the abstracted file outcome: every failure
branch (missing file, read error, parse error) and a falsy parse result
yield the empty dict (`return {}` / `... or {}`); a parsed mapping is
returned as is. -/
def _load_yaml : FileOutcome → PyDict
  | .missing => []
  | .readError => []
  | .parseError => []
  | .parsed Option.none => []
  | .parsed (Option.some m) => m

/-- The body of `get_config(yaml_path)`: load the YAML (non-fatally) and
wrap it with the pydantic settings into a `Config`. The file outcome
abstracts the filesystem read at the resolved path. -/
def get_config (o : FileOutcome) (s : Settings) : Config :=
  { _settings := s, _yaml := _load_yaml o }

/-- The process environment as `get_config` sees it: the pydantic
settings constructed from the environment, and the file outcome the
filesystem yields for each optional `yaml_path` argument. -/
structure World where
  settingsEnv : Settings
  fileOutcome : Option String → FileOutcome

/-- One call of the `lru_cache`-decorated `get_config` in world `w` with
argument `arg` and cache `cache`: a hit returns the cached `Config`
unchanged, a miss runs the body once and stores the result under the
argument. -/
def get_config_step (w : World) (arg : Option String)
    (cache : List (Option String × Config)) :
    Config × List (Option String × Config) :=
  match cache.find? (fun p => p.1 == arg) with
  | some p => (p.2, cache)
  | Option.none =>
      let c := get_config (w.fileOutcome arg) w.settingsEnv
      (c, cache ++ [(arg, c)])

/-- The module-level initialization of `db/init_db.py`: read
`DATABASE_URL` through the resolver and raise
`RuntimeError("DATABASE_URL not set in environment or config.")` when it
is falsy (`if not DATABASE_URL`). -/
def init_db_module (c : Config) : Except String Unit :=
  let dbUrl := c.get_env "DATABASE_URL" Val.none
  if dbUrl.truthy then Except.ok ()
  else Except.error "DATABASE_URL not set in environment or config."

/-- A `Settings` object carrying exactly the declared field defaults
(what `Settings()` yields in an empty environment). -/
def defaultSettings : Settings := {}

/-- Replacing the value stored under `k` makes `k` map to the new value. -/
theorem alist_get_map_replace_self (m : PyDict) (k : String) (v : Val)
    (h : m.any (fun p => p.1 == k) = true) :
    alist_get (m.map (fun p => if p.1 == k then (k, v) else p)) k = some v := by
  induction m with
  | nil => simp at h
  | cons a m ih =>
    by_cases hak : (a.1 == k) = true
    · simp only [List.map_cons, if_pos hak]
      simp [alist_get, List.find?_cons_of_pos]
    · simp only [List.map_cons, if_neg hak]
      simp only [List.any_cons, Bool.or_eq_true] at h
      rcases h with h | h
      · exact absurd h hak
      · have := ih h
        simp only [alist_get] at this ⊢
        rw [List.find?_cons_of_neg (p := fun q : String × Val => q.1 == k) _ hak]
        exact this

/-- Replacing the value stored under `k` leaves every other key alone. -/
theorem alist_get_map_replace_ne (m : PyDict) (k k' : String) (v : Val)
    (h : k' ≠ k) :
    alist_get (m.map (fun p => if p.1 == k then (k, v) else p)) k' = alist_get m k' := by
  induction m with
  | nil => rfl
  | cons a m ih =>
    by_cases hak : (a.1 == k) = true
    · simp only [List.map_cons, if_pos hak]
      have h1 : ((k : String) == k') = false := beq_eq_false_iff_ne.mpr (Ne.symm h)
      have h2 : (a.1 == k') = false := by
        rw [beq_iff_eq.mp hak]
        exact h1
      simp only [alist_get] at ih ⊢
      rw [List.find?_cons_of_neg (p := fun q : String × Val => q.1 == k') _ (by simp [h1]),
        List.find?_cons_of_neg (p := fun q : String × Val => q.1 == k') _ (by simp [h2])]
      exact ih
    · simp only [List.map_cons, if_neg hak]
      by_cases hk' : (a.1 == k') = true
      · simp only [alist_get]
        rw [List.find?_cons_of_pos (p := fun q : String × Val => q.1 == k') _ hk',
          List.find?_cons_of_pos (p := fun q : String × Val => q.1 == k') _ hk']
      · simp only [alist_get] at ih ⊢
        rw [List.find?_cons_of_neg (p := fun q : String × Val => q.1 == k') _ hk',
          List.find?_cons_of_neg (p := fun q : String × Val => q.1 == k') _ hk']
        exact ih

/-- After `m[k] = v`, looking up `k` yields `v`. -/
theorem alist_get_set_self (m : PyDict) (k : String) (v : Val) :
    alist_get (alist_set m k v) k = some v := by
  unfold alist_set
  by_cases h : m.any (fun p => p.1 == k) = true
  · rw [if_pos h]
    exact alist_get_map_replace_self m k v h
  · rw [if_neg h]
    have hf : m.find? (fun p => p.1 == k) = Option.none :=
      List.find?_eq_none.mpr (List.any_eq_false.mp (Bool.eq_false_iff.mpr h))
    simp [alist_get, List.find?_append, hf, List.find?]

/-- After `m[k] = v`, looking up any other key is unchanged. -/
theorem alist_get_set_ne (m : PyDict) (k k' : String) (v : Val) (h : k' ≠ k) :
    alist_get (alist_set m k v) k' = alist_get m k' := by
  unfold alist_set
  by_cases hany : m.any (fun p => p.1 == k) = true
  · rw [if_pos hany]
    exact alist_get_map_replace_ne m k k' v h
  · rw [if_neg hany]
    have hkk : ((k : String) == k') = false := beq_eq_false_iff_ne.mpr (Ne.symm h)
    have hone : List.find? (fun p => p.1 == k') [(k, v)] = Option.none := by
      simp [List.find?, hkk]
    simp [alist_get, List.find?_append, hone]

/-- `m.update(l)` does not touch a key that `l` does not carry. -/
theorem alist_get_update_not_mem (l : PyDict) :
    ∀ (m : PyDict) (k : String), (∀ p ∈ l, p.1 ≠ k) →
      alist_get (alist_update m l) k = alist_get m k := by
  induction l with
  | nil => intro m k _; rfl
  | cons p l ih =>
    intro m k h
    simp only [alist_update, List.foldl_cons] at ih ⊢
    rw [ih (alist_set m p.1 p.2) k (fun q hq => h q (List.mem_cons_of_mem p hq))]
    exact alist_get_set_ne m p.1 k p.2 fun hk =>
      h p (List.mem_cons_self p l) hk.symm

/-- `m.update(l)` makes every key of `l` map to its `l`-value, when the
keys of `l` are distinct. -/
theorem alist_get_update_mem (l : PyDict) :
    ∀ (m : PyDict) (k : String) (v : Val),
      (l.map Prod.fst).Nodup → (k, v) ∈ l →
      alist_get (alist_update m l) k = some v := by
  induction l with
  | nil => intro m k v _ hm; cases hm
  | cons p l ih =>
    intro m k v hnd hm
    simp only [List.map_cons, List.nodup_cons] at hnd
    rcases List.mem_cons.mp hm with h1 | h1
    · subst h1
      simp only [alist_update, List.foldl_cons]
      have hrest : ∀ q ∈ l, q.1 ≠ (k, v).1 := by
        intro q hq hk
        exact hnd.1 (hk ▸ List.mem_map_of_mem Prod.fst hq)
      have hno := alist_get_update_not_mem l (alist_set m (k, v).1 (k, v).2) (k, v).1 hrest
      simp only [alist_update] at hno
      rw [hno]
      exact alist_get_set_self m (k, v).1 (k, v).2
    · simp only [alist_update, List.foldl_cons]
      exact ih (alist_set m p.1 p.2) k v hnd.2 h1
example : lower "DEBUG" = "debug" := by decide
example : lower "DATABASE_URL" = "database_url" := by decide
example : (Config.mk defaultSettings []).get_env "APP_ENV" Val.none = Val.str "development" := rfl
example : init_db_module (Config.mk defaultSettings []) =
    Except.error "DATABASE_URL not set in environment or config." := rfl
example : (Config.mk defaultSettings [("dhan", Val.dict [("a", Val.int 1)])]).getitem "dhan" =
    Val.dict [("a", Val.int 1)] := rfl

/-- How a column of a declared model obtains its value when a row is
constructed without supplying it: `required` (no default), `none_`
(`default=None`), `value s` (a literal string default), or `utcnow`
(`default_factory=datetime.utcnow`, the implicit creation timestamp). -/
inductive ColDefault where
  | required : ColDefault
  | none_ : ColDefault
  | value : String → ColDefault
  | utcnow : ColDefault
deriving DecidableEq

/-- A declared model field: its name and its construction default.
Column types, keys and indexes are not recorded here; no claim about
the schema depends on them. -/
structure ColumnDecl where
  name : String
  default : ColDefault
deriving DecidableEq

/-- A declared SQLModel table: its `__tablename__` and its fields in
declaration order. -/
structure TableDecl where
  tablename : String
  columns : List ColumnDecl
deriving DecidableEq

/-- The `User` model (`users`). -/
def users : TableDecl :=
  ⟨"users",
   [⟨"id", .none_⟩, ⟨"first_name", .none_⟩, ⟨"last_name", .none_⟩,
    ⟨"email", .none_⟩, ⟨"password_hash", .none_⟩, ⟨"dhan_client_id", .none_⟩,
    ⟨"created_at", .utcnow⟩]⟩

/-- The `AllInstrumentsList` model (`all_instruments_list`). -/
def all_instruments_list : TableDecl :=
  ⟨"all_instruments_list",
   [⟨"id", .none_⟩, ⟨"sem_exm_exch_id", .none_⟩, ⟨"sem_segment", .none_⟩,
    ⟨"sem_smst_security_id", .none_⟩, ⟨"sem_instrument_name", .none_⟩,
    ⟨"sem_expiry_code", .none_⟩, ⟨"sem_trading_symbol", .none_⟩,
    ⟨"sem_lot_units", .none_⟩, ⟨"sem_custom_symbol", .none_⟩,
    ⟨"sem_expiry_date", .none_⟩, ⟨"sem_strike_price", .none_⟩,
    ⟨"sem_option_type", .none_⟩, ⟨"sem_tick_size", .none_⟩,
    ⟨"sem_expiry_flag", .none_⟩, ⟨"sem_exch_instrument_type", .none_⟩,
    ⟨"sem_series", .none_⟩, ⟨"sm_symbol_name", .none_⟩,
    ⟨"created_at", .utcnow⟩]⟩

/-- The `InstrumentMaster` model (`instrument_master`). -/
def instrument_master : TableDecl :=
  ⟨"instrument_master",
   [⟨"security_id", .required⟩, ⟨"exchange_segment", .required⟩,
    ⟨"trading_symbol", .none_⟩, ⟨"exchange", .none_⟩, ⟨"segment", .none_⟩,
    ⟨"instrument", .none_⟩, ⟨"underlying", .none_⟩, ⟨"expiry_code", .none_⟩,
    ⟨"expiry_flag", .none_⟩, ⟨"expiry_date", .none_⟩, ⟨"option_type", .none_⟩,
    ⟨"strike_price", .none_⟩, ⟨"lot_size", .none_⟩,
    ⟨"created_at", .utcnow⟩]⟩

/-- The `TradePlan` model (`trade_plan`). -/
def trade_plan : TableDecl :=
  ⟨"trade_plan",
   [⟨"trade_id", .none_⟩, ⟨"user_id", .none_⟩, ⟨"trading_symbol", .required⟩,
    ⟨"exchange", .value "NSE"⟩, ⟨"instrument", .required⟩,
    ⟨"time_frame", .required⟩, ⟨"trade_direction", .required⟩,
    ⟨"trade_type", .required⟩, ⟨"trade_setup", .required⟩,
    ⟨"entry_price", .none_⟩, ⟨"stop_loss", .none_⟩, ⟨"target_price", .none_⟩,
    ⟨"signal", .none_⟩, ⟨"probability", .none_⟩, ⟨"score", .none_⟩,
    ⟨"execution_strategy", .none_⟩, ⟨"execution_flag", .value "Disabled"⟩,
    ⟨"status", .none_⟩, ⟨"notes", .none_⟩,
    ⟨"created_at", .utcnow⟩, ⟨"updated_at", .utcnow⟩]⟩

/-- The `LiveTrade` model (`live_trades`). -/
def live_trades : TableDecl :=
  ⟨"live_trades",
   [⟨"id", .none_⟩, ⟨"user_id", .none_⟩, ⟨"trade_id", .none_⟩,
    ⟨"trading_symbol", .required⟩, ⟨"exchange", .value "NSE"⟩,
    ⟨"instrument", .required⟩, ⟨"ltp", .none_⟩, ⟨"transaction_type", .none_⟩,
    ⟨"entry_order_id", .none_⟩, ⟨"entry_price", .none_⟩,
    ⟨"entry_quantity", .none_⟩, ⟨"entry_date", .none_⟩, ⟨"entry_time", .none_⟩,
    ⟨"exit_order_id", .none_⟩, ⟨"exit_price", .none_⟩,
    ⟨"exit_quantity", .none_⟩, ⟨"exit_date", .none_⟩, ⟨"exit_time", .none_⟩,
    ⟨"status", .value "Traded"⟩, ⟨"remark", .none_⟩]⟩

/-- The `TradeLog` model (`trade_log`). -/
def trade_log : TableDecl :=
  ⟨"trade_log",
   [⟨"id", .none_⟩, ⟨"user_id", .none_⟩, ⟨"trade_id", .none_⟩,
    ⟨"trading_symbol", .none_⟩, ⟨"exchange", .value "NSE"⟩,
    ⟨"instrument", .none_⟩, ⟨"trade_direction", .none_⟩,
    ⟨"trade_type", .none_⟩, ⟨"trade_setup", .none_⟩, ⟨"probability", .none_⟩,
    ⟨"execution_strategy", .none_⟩, ⟨"entry_date", .none_⟩,
    ⟨"entry_time", .none_⟩, ⟨"exit_date", .none_⟩, ⟨"exit_time", .none_⟩,
    ⟨"pnl", .none_⟩, ⟨"roi", .none_⟩, ⟨"risk_reward", .none_⟩,
    ⟨"holding_period", .none_⟩, ⟨"remark", .none_⟩, ⟨"notes", .none_⟩,
    ⟨"created_at", .utcnow⟩]⟩

/-- The `TradeLogDetail` model (`trade_log_detail`). -/
def trade_log_detail : TableDecl :=
  ⟨"trade_log_detail",
   [⟨"id", .none_⟩, ⟨"user_id", .none_⟩, ⟨"trade_id", .none_⟩,
    ⟨"trading_symbol", .none_⟩, ⟨"exchange", .value "NSE"⟩,
    ⟨"instrument", .none_⟩, ⟨"entry_order_id", .none_⟩,
    ⟨"entry_price", .none_⟩, ⟨"entry_quantity", .none_⟩,
    ⟨"exit_order_id", .none_⟩, ⟨"exit_price", .none_⟩,
    ⟨"exit_quantity", .none_⟩, ⟨"created_at", .utcnow⟩]⟩

/-- The `TradeHistory` model (`trade_history`). -/
def trade_history : TableDecl :=
  ⟨"trade_history",
   [⟨"id", .none_⟩, ⟨"user_id", .none_⟩, ⟨"order_id", .none_⟩,
    ⟨"exchange_order_id", .none_⟩, ⟨"exchange_trade_id", .none_⟩,
    ⟨"transaction_type", .none_⟩, ⟨"exchange_segment", .none_⟩,
    ⟨"product_type", .none_⟩, ⟨"order_type", .none_⟩,
    ⟨"trading_symbol", .none_⟩, ⟨"custom_symbol", .none_⟩,
    ⟨"security_id", .none_⟩, ⟨"traded_quantity", .none_⟩,
    ⟨"traded_price", .none_⟩, ⟨"isin", .none_⟩, ⟨"instrument", .none_⟩,
    ⟨"sebi_tax", .none_⟩, ⟨"stt", .none_⟩, ⟨"brokerage_charges", .none_⟩,
    ⟨"service_tax", .none_⟩, ⟨"exchange_transaction_charges", .none_⟩,
    ⟨"stamp_duty", .none_⟩, ⟨"exchange_time", .none_⟩,
    ⟨"drv_expiry_date", .none_⟩, ⟨"drv_option_type", .none_⟩,
    ⟨"drv_strike_price", .none_⟩, ⟨"created_at", .utcnow⟩]⟩

/-- The `LedgerReport` model (`ledger_report`). -/
def ledger_report : TableDecl :=
  ⟨"ledger_report",
   [⟨"id", .none_⟩, ⟨"user_id", .none_⟩, ⟨"narration", .none_⟩,
    ⟨"voucher_date", .none_⟩, ⟨"exchange", .none_⟩, ⟨"voucher_desc", .none_⟩,
    ⟨"voucher_number", .none_⟩, ⟨"debit", .none_⟩, ⟨"credit", .none_⟩,
    ⟨"running_balance", .none_⟩, ⟨"created_at", .utcnow⟩]⟩

/-- The `IndicatorData` model (`indicator_data`). -/
def indicator_data : TableDecl :=
  ⟨"indicator_data",
   [⟨"id", .none_⟩, ⟨"trading_symbol", .none_⟩, ⟨"security_id", .none_⟩,
    ⟨"exchange_segment", .none_⟩, ⟨"timeframe", .none_⟩,
    ⟨"datetime", .none_⟩, ⟨"open", .none_⟩, ⟨"high", .none_⟩,
    ⟨"low", .none_⟩, ⟨"close", .none_⟩, ⟨"volume", .none_⟩,
    ⟨"vwap", .none_⟩, ⟨"volume_sma_10", .none_⟩, ⟨"ha_open", .none_⟩,
    ⟨"ha_high", .none_⟩, ⟨"ha_low", .none_⟩, ⟨"ha_close", .none_⟩,
    ⟨"ema_5", .none_⟩, ⟨"ema_13", .none_⟩, ⟨"ema_26", .none_⟩,
    ⟨"ema_50", .none_⟩, ⟨"ema_100", .none_⟩, ⟨"ema_200", .none_⟩,
    ⟨"rsi_14", .none_⟩, ⟨"macd_line", .none_⟩, ⟨"macd_signal", .none_⟩,
    ⟨"macd_hist", .none_⟩, ⟨"stochastic_k", .none_⟩,
    ⟨"stochastic_d", .none_⟩, ⟨"bollinger_upper_2", .none_⟩,
    ⟨"bollinger_middle_2", .none_⟩, ⟨"bollinger_lower_2", .none_⟩,
    ⟨"bollinger_upper_3", .none_⟩, ⟨"bollinger_middle_3", .none_⟩,
    ⟨"bollinger_lower_3", .none_⟩, ⟨"plus_di_14", .none_⟩,
    ⟨"minus_di_14", .none_⟩, ⟨"adx_14", .none_⟩, ⟨"atr_14", .none_⟩,
    ⟨"historic_volatility", .none_⟩, ⟨"supertrend", .none_⟩]⟩

/-- Every model declared in `db/models.py`, in declaration order. -/
def allModels : List TableDecl :=
  [users, all_instruments_list, instrument_master, trade_plan, live_trades,
   trade_log, trade_log_detail, trade_history, ledger_report, indicator_data]

/-- A point in time (the value `datetime.utcnow()` yields), abstracted. -/
abbrev Datetime := Nat

/-- A `TradePlan` row as constructed in memory: every field of the
model, with the declared defaults for the defaulted fields.
`execution_flag` is typed `str` in the source, so any string is
accepted at construction. Numeric price fields are abstracted to `Int`
numerators; no claim computes with them. -/
structure TradePlanRow where
  trade_id : Option Int := Option.none
  user_id : Option Int := Option.none
  trading_symbol : String
  exchange : String := "NSE"
  instrument : String
  time_frame : String
  trade_direction : String
  trade_type : String
  trade_setup : String
  entry_price : Option Int := Option.none
  stop_loss : Option Int := Option.none
  target_price : Option Int := Option.none
  signal : Option String := Option.none
  probability : Option String := Option.none
  score : Option Int := Option.none
  execution_strategy : Option String := Option.none
  execution_flag : String := "Disabled"
  status : Option String := Option.none
  notes : Option String := Option.none
  created_at : Datetime
  updated_at : Datetime

/-- Construct a `TradePlan` row supplying only the required fields, the
way `TradePlan(trading_symbol=..., instrument=..., time_frame=...,
trade_direction=..., trade_type=..., trade_setup=...)` does: every
defaulted field takes its declared default and both timestamps take the
construction time `now`. -/
def TradePlanRow.mkNew (sym instr tf dir ty setup : String)
    (now : Datetime) : TradePlanRow :=
  { trading_symbol := sym, instrument := instr, time_frame := tf,
    trade_direction := dir, trade_type := ty, trade_setup := setup,
    created_at := now, updated_at := now }

/-- A name outside the declared settings fields, outside the model's
class attributes and not underscore-initial resolves to no attribute. -/
theorem getattr_eq_none_of_not_mem (s : Settings) (a : String)
    (h : a ∉ settingsAttrNames) (hc : a ∉ settingsClassAttrNames)
    (hu : isUnderscoreInitial a = false) : s.getattr a = Option.none := by
  simp only [settingsAttrNames, List.mem_cons, List.not_mem_nil, or_false, not_or] at h
  obtain ⟨h1, h2, h3, h4, h5, h6, h7, h8, h9, h10, h11, h12, h13, h14, h15, h16⟩ := h
  simp [Settings.getattr, h1, h2, h3, h4, h5, h6, h7, h8, h9, h10, h11, h12,
    h13, h14, h15, h16, hc, hu]

/-- The keys of the settings dict are the declared attribute names. -/
theorem settings_dict_keys (s : Settings) :
    (s.dict).map Prod.fst = settingsAttrNames := rfl

/-- Claim C6 counterexample: the key `"dict"` names no environment-
bound setting, yet `get_env("dict", default)` returns the bound method
`BaseModel.dict` resolved by `getattr`, not the supplied default — so
"returns the supplied default when the key names no environment-bound
setting" is false as stated. -/
theorem get_env_default_counterexample :
    "dict" ∉ settingsAttrNames ∧
    (Config.mk defaultSettings []).get_env "dict" (Val.str "dflt") =
      Val.method "dict" ∧
    (Config.mk defaultSettings []).get_env "dict" (Val.str "dflt") ≠
      Val.str "dflt" :=
  ⟨by decide, rfl,
   fun h => Val.noConfusion (show Val.method "dict" = Val.str "dflt" from h)⟩

/-- Claim C6 as amended: `get_env(key, default)` is case-insensitive —
two keys with the same lowercasing resolve identically — and returns
the supplied default when the lowercased key names no attribute of the
settings object at all: no declared environment-bound setting, no
model class attribute (`dict`, `json`, `copy`, `schema`, ...) and no
underscore-initial internal. For a key naming a class attribute the
bound attribute object is returned instead of the default. -/
theorem get_env_case_insensitive (s : Settings) (y : PyDict) (k1 k2 : String)
    (d : Val) :
    (lower k1 = lower k2 →
      (Config.mk s y).get_env k1 d = (Config.mk s y).get_env k2 d) ∧
    (lower k1 ∉ settingsAttrNames → lower k1 ∉ settingsClassAttrNames →
      isUnderscoreInitial (lower k1) = false →
      (Config.mk s y).get_env k1 d = d) ∧
    (lower k1 ∈ settingsClassAttrNames →
      (Config.mk s y).get_env k1 d = Val.method (lower k1)) := by
  refine ⟨?_, ?_, ?_⟩
  · intro h
    simp [Config.get_env, h]
  · intro h hc hu
    simp [Config.get_env, getattr_eq_none_of_not_mem s _ h hc hu]
  · intro h
    simp only [Config.get_env]
    revert h
    generalize lower k1 = a
    intro h
    fin_cases h <;> rfl

/-- Witness for C6 at concrete inputs: `"DEBUG"` and `"debug"` agree,
an unrecognized key yields the supplied default, and `"DICT"` resolves
to the bound method. -/
theorem get_env_case_insensitive_witness :
    (Config.mk defaultSettings []).get_env "DEBUG" Val.none =
      (Config.mk defaultSettings []).get_env "debug" Val.none ∧
    (Config.mk defaultSettings []).get_env "no_such_key" (Val.str "dflt") =
      Val.str "dflt" ∧
    (Config.mk defaultSettings []).get_env "DICT" (Val.str "dflt") =
      Val.method "dict" :=
  ⟨(get_env_case_insensitive defaultSettings [] "DEBUG" "debug" Val.none).1
      (by decide),
   (get_env_case_insensitive defaultSettings [] "no_such_key" "debug"
      (Val.str "dflt")).2.1 (by decide) (by decide) (by decide),
   (get_env_case_insensitive defaultSettings [] "DICT" "debug"
      (Val.str "dflt")).2.2 (by decide)⟩

/-- Claim C1 counterexample: `"json"` names no environment-bound
setting and the YAML carries a top-level `"json"` entry, yet
`cfg["json"]` returns the bound method resolved by `getattr` — truthy
and not in `(None, "", [])` — so the claimed fallback to the YAML entry
does not happen for such a key. -/
theorem getitem_yaml_fallback_counterexample :
    "json" ∉ settingsAttrNames ∧
    alist_get [("json", Val.int 42)] "json" = some (Val.int 42) ∧
    (Config.mk defaultSettings [("json", Val.int 42)]).getitem "json" =
      Val.method "json" ∧
    (Config.mk defaultSettings [("json", Val.int 42)]).getitem "json" ≠
      Val.int 42 :=
  ⟨by decide, rfl, rfl,
   fun h => Val.noConfusion (show Val.method "json" = Val.int 42 from h)⟩

/-- Claim C1 as amended: the combined lookup `cfg[key]` returns the
value attribute resolution yields for the lowercased key — the
env-bound setting's value, or a model attribute object such as a bound
method — whenever that value is present and non-empty (not `None`, `""`
or `[]`), and only otherwise returns the top-level YAML entry for the
key. In particular a key resolving to a class attribute (`dict`,
`json`, ...) never reaches its YAML entry. -/
theorem getitem_env_wins_else_yaml (s : Settings) (y : PyDict) (key : String)
    (v : Val) :
    (((Config.mk s y).get_env key Val.none).isEmptyish = false →
      (Config.mk s y).getitem key = (Config.mk s y).get_env key Val.none) ∧
    (((Config.mk s y).get_env key Val.none).isEmptyish = true →
      alist_get y key = some v → (Config.mk s y).getitem key = v) := by
  constructor
  · intro h
    simp [Config.getitem, h]
  · intro h hv
    simp [Config.getitem, h, hv]

/-- Witness for C1: a non-empty env value shadows a YAML entry of the
same name, and an env-absent key falls back to its YAML entry. -/
theorem getitem_env_wins_else_yaml_witness :
    (Config.mk defaultSettings [("app_env", Val.str "from_yaml")]).getitem
      "app_env" = Val.str "development" ∧
    (Config.mk defaultSettings [("dhan", Val.dict [("a", Val.int 1)])]).getitem
      "dhan" = Val.dict [("a", Val.int 1)] :=
  ⟨((getitem_env_wins_else_yaml defaultSettings [("app_env", Val.str "from_yaml")]
      "app_env" Val.none).1 rfl).trans rfl,
   (getitem_env_wins_else_yaml defaultSettings
      [("dhan", Val.dict [("a", Val.int 1)])] "dhan"
      (Val.dict [("a", Val.int 1)])).2 rfl rfl⟩

/-- Claim C10 counterexample: the key `"dict"` names no environment-
bound setting and is absent from the (empty) YAML, yet `cfg["dict"]`
returns the bound method resolved by `getattr` — a truthy object not in
`(None, "", [])` — rather than `None`. -/
theorem getitem_absent_key_counterexample :
    "dict" ∉ settingsAttrNames ∧ alist_get [] "dict" = Option.none ∧
    (Config.mk defaultSettings []).getitem "dict" = Val.method "dict" ∧
    (Config.mk defaultSettings []).getitem "dict" ≠ Val.none :=
  ⟨by decide, rfl, rfl,
   fun h => Val.noConfusion (show Val.method "dict" = Val.none from h)⟩

/-- Claim C10 as amended: for a key naming one of the non-optional
bool/int settings (`debug`, `port`, `database_echo`, `dhan_sandbox`)
the combined lookup always returns the env-backed value — `False` and
`0` included — so the YAML entry of that name is never consulted; and a
key that names no attribute of the settings object (no declared
setting, no model class attribute such as `dict` or `json`, no
underscore-initial internal) and is absent from the YAML top level
yields `None`. A key naming a class attribute returns that attribute
object instead. -/
theorem getitem_nonoptional_env_always (s : Settings) (y : PyDict)
    (key : String) :
    (lower key = "debug" → (Config.mk s y).getitem key = Val.bool s.debug) ∧
    (lower key = "port" → (Config.mk s y).getitem key = Val.int s.port) ∧
    (lower key = "database_echo" →
      (Config.mk s y).getitem key = Val.bool s.database_echo) ∧
    (lower key = "dhan_sandbox" →
      (Config.mk s y).getitem key = Val.bool s.dhan_sandbox) ∧
    (lower key ∉ settingsAttrNames → lower key ∉ settingsClassAttrNames →
      isUnderscoreInitial (lower key) = false →
      alist_get y key = Option.none →
      (Config.mk s y).getitem key = Val.none) := by
  refine ⟨?_, ?_, ?_, ?_, ?_⟩
  · intro h
    simp [Config.getitem, Config.get_env, h, Settings.getattr, Val.isEmptyish]
  · intro h
    simp [Config.getitem, Config.get_env, h, Settings.getattr, Val.isEmptyish]
  · intro h
    simp [Config.getitem, Config.get_env, h, Settings.getattr, Val.isEmptyish]
  · intro h
    simp [Config.getitem, Config.get_env, h, Settings.getattr, Val.isEmptyish]
  · intro h hc hu hy
    simp [Config.getitem, Config.get_env,
      getattr_eq_none_of_not_mem s _ h hc hu, Val.isEmptyish, hy]

/-- Witness for C10: the four non-optional settings are returned at
their (falsy) defaults even when the YAML carries the same key, and a
key absent from both sides yields `None`. -/
theorem getitem_nonoptional_env_always_witness :
    (Config.mk defaultSettings [("debug", Val.str "yaml")]).getitem "DEBUG" =
      Val.bool false ∧
    (Config.mk defaultSettings []).getitem "PORT" = Val.int 8000 ∧
    (Config.mk defaultSettings []).getitem "DATABASE_ECHO" = Val.bool false ∧
    (Config.mk defaultSettings []).getitem "DHAN_SANDBOX" = Val.bool true ∧
    (Config.mk defaultSettings []).getitem "missing_key" = Val.none :=
  ⟨(getitem_nonoptional_env_always defaultSettings [("debug", Val.str "yaml")]
      "DEBUG").1 (by decide),
   (getitem_nonoptional_env_always defaultSettings [] "PORT").2.1 (by decide),
   (getitem_nonoptional_env_always defaultSettings [] "DATABASE_ECHO").2.2.1
      (by decide),
   (getitem_nonoptional_env_always defaultSettings [] "DHAN_SANDBOX").2.2.2.1
      (by decide),
   (getitem_nonoptional_env_always defaultSettings [] "missing_key").2.2.2.2
      (by decide) (by decide) (by decide) rfl⟩

/-- Claim C7: `get(section, key, default)` returns the value under
`key` inside the named YAML subsection, and the supplied default when
the section is missing, when its value is not a mapping, or when the
key is absent from the section. -/
theorem config_get_section_lookup (s : Settings) (y : PyDict)
    (sect key : String) (d v : Val) :
    (∀ m, alist_get y sect = some (Val.dict m) → alist_get m key = some v →
      (Config.mk s y).get sect key d = v) ∧
    (alist_get y sect = Option.none → (Config.mk s y).get sect key d = d) ∧
    (∀ w, alist_get y sect = some w → w.isDict = false →
      (Config.mk s y).get sect key d = d) ∧
    (∀ m, alist_get y sect = some (Val.dict m) → alist_get m key = Option.none →
      (Config.mk s y).get sect key d = d) := by
  refine ⟨?_, ?_, ?_, ?_⟩
  · intro m h1 h2
    simp [Config.get, h1, h2]
  · intro h
    simp only [Config.get, h]
    simp [alist_get]
  · intro w h1 h2
    cases w <;> simp_all [Config.get, Val.isDict]
  · intro m h1 h2
    simp [Config.get, h1, h2]

/-- Witness for C7: the four behaviours at a concrete YAML mapping. -/
theorem config_get_section_lookup_witness :
    (Config.mk defaultSettings
        [("risk_limits", Val.dict [("max_position", Val.int 10)]),
         ("oops", Val.str "x")]).get "risk_limits" "max_position"
        (Val.str "dflt") = Val.int 10 ∧
    (Config.mk defaultSettings
        [("risk_limits", Val.dict [("max_position", Val.int 10)]),
         ("oops", Val.str "x")]).get "absent" "k" (Val.str "dflt") =
      Val.str "dflt" ∧
    (Config.mk defaultSettings
        [("risk_limits", Val.dict [("max_position", Val.int 10)]),
         ("oops", Val.str "x")]).get "oops" "k" (Val.str "dflt") =
      Val.str "dflt" ∧
    (Config.mk defaultSettings
        [("risk_limits", Val.dict [("max_position", Val.int 10)]),
         ("oops", Val.str "x")]).get "risk_limits" "absent" (Val.str "dflt") =
      Val.str "dflt" :=
  ⟨(config_get_section_lookup defaultSettings
      [("risk_limits", Val.dict [("max_position", Val.int 10)]),
       ("oops", Val.str "x")] "risk_limits" "max_position" (Val.str "dflt")
      (Val.int 10)).1 [("max_position", Val.int 10)] rfl rfl,
   (config_get_section_lookup defaultSettings
      [("risk_limits", Val.dict [("max_position", Val.int 10)]),
       ("oops", Val.str "x")] "absent" "k" (Val.str "dflt")
      Val.none).2.1 rfl,
   (config_get_section_lookup defaultSettings
      [("risk_limits", Val.dict [("max_position", Val.int 10)]),
       ("oops", Val.str "x")] "oops" "k" (Val.str "dflt")
      Val.none).2.2.1 (Val.str "x") rfl rfl,
   (config_get_section_lookup defaultSettings
      [("risk_limits", Val.dict [("max_position", Val.int 10)]),
       ("oops", Val.str "x")] "risk_limits" "absent" (Val.str "dflt")
      Val.none).2.2.2 [("max_position", Val.int 10)] rfl rfl⟩

/-- Claim C2: `to_dict()` maps every key of a non-`None` environment-
bound setting to that setting's value (the environment wins on a key
collision with the YAML), and on every other key it agrees with the
YAML mapping, so an unshadowed YAML entry survives in the result. -/
theorem to_dict_env_wins (s : Settings) (y : PyDict) (key : String) :
    (∀ v, (key, v) ∈ s.dict → v.isNone = false →
      alist_get ((Config.mk s y).to_dict) key = some v) ∧
    (key ∉ nonNullEnvKeys s →
      alist_get ((Config.mk s y).to_dict) key = alist_get y key) := by
  constructor
  · intro v hv hnn
    have hmem : (key, v) ∈ (s.dict).filter (fun p => !p.2.isNone) :=
      List.mem_filter.mpr ⟨hv, by simp [hnn]⟩
    have hsub : (((s.dict).filter (fun p => !p.2.isNone)).map Prod.fst).Sublist
        ((s.dict).map Prod.fst) :=
      (List.filter_sublist _).map Prod.fst
    have hnd : (((s.dict).filter (fun p => !p.2.isNone)).map Prod.fst).Nodup :=
      List.Nodup.sublist hsub (by rw [settings_dict_keys]; decide)
    exact alist_get_update_mem _ y key v hnd hmem
  · intro h
    apply alist_get_update_not_mem
    intro p hp hpk
    exact h (hpk ▸ List.mem_map_of_mem Prod.fst hp)

/-- Witness for C2: with default settings and a YAML carrying both a
colliding key and a fresh key, the env value shadows the collision and
the fresh YAML entry survives. -/
theorem to_dict_env_wins_witness :
    alist_get ((Config.mk defaultSettings
        [("app_env", Val.str "from_yaml"), ("risk", Val.int 5)]).to_dict)
      "app_env" = some (Val.str "development") ∧
    alist_get ((Config.mk defaultSettings
        [("app_env", Val.str "from_yaml"), ("risk", Val.int 5)]).to_dict)
      "risk" = alist_get [("app_env", Val.str "from_yaml"), ("risk", Val.int 5)]
        "risk" :=
  ⟨(to_dict_env_wins defaultSettings
      [("app_env", Val.str "from_yaml"), ("risk", Val.int 5)] "app_env").1
      (Val.str "development") (List.mem_cons_self _ _) rfl,
   (to_dict_env_wins defaultSettings
      [("app_env", Val.str "from_yaml"), ("risk", Val.int 5)] "risk").2
      (by decide)⟩

/-- Claim C3: a missing, unreadable or unparseable YAML file is
non-fatal — the loader returns the empty mapping and the resolver is
still constructed, with an empty YAML section set. -/
theorem load_yaml_failures_nonfatal (o : FileOutcome) (s : Settings)
    (h : o = FileOutcome.missing ∨ o = FileOutcome.readError ∨
      o = FileOutcome.parseError) :
    _load_yaml o = [] ∧ get_config o s = Config.mk s [] := by
  rcases h with rfl | rfl | rfl <;> exact ⟨rfl, rfl⟩

/-- Witness for C3 at a missing file and the default settings. -/
theorem load_yaml_failures_nonfatal_witness :
    _load_yaml FileOutcome.missing = [] ∧
    get_config FileOutcome.missing defaultSettings =
      Config.mk defaultSettings [] :=
  load_yaml_failures_nonfatal FileOutcome.missing defaultSettings (Or.inl rfl)

/-- Claim C4: with `DATABASE_URL` absent (`None`) or empty (`""`),
constructing the resolver succeeds (it returns the wrapper built from
the settings and whatever the YAML load yielded), and the fatal
`RuntimeError` is raised at database-layer module initialization. -/
theorem missing_database_url_fatal (s : Settings) (o : FileOutcome)
    (h : s.database_url = Option.none ∨ s.database_url = some "") :
    get_config o s = Config.mk s (_load_yaml o) ∧
    init_db_module (get_config o s) =
      Except.error "DATABASE_URL not set in environment or config." := by
  refine ⟨rfl, ?_⟩
  have hdb : (get_config o s).get_env "DATABASE_URL" Val.none =
      optStr s.database_url := rfl
  rcases h with h | h <;> simp [init_db_module, hdb, h, optStr, Val.truthy]

/-- Witness for C4 at the default settings (whose `database_url` is
`None`) and a missing YAML file. -/
theorem missing_database_url_fatal_witness :
    get_config FileOutcome.missing defaultSettings =
      Config.mk defaultSettings (_load_yaml FileOutcome.missing) ∧
    init_db_module (get_config FileOutcome.missing defaultSettings) =
      Except.error "DATABASE_URL not set in environment or config." :=
  missing_database_url_fatal defaultSettings FileOutcome.missing (Or.inl rfl)

/-- Claim C5: in any fixed process environment, calling the memoized
`get_config` twice with no override path returns the very same `Config`
as the first call and leaves the cache unchanged — a per-process
singleton. -/
theorem get_config_memoized (w : World) :
    (get_config_step w Option.none ((get_config_step w Option.none []).2)).1 =
      (get_config_step w Option.none []).1 ∧
    (get_config_step w Option.none ((get_config_step w Option.none []).2)).2 =
      (get_config_step w Option.none []).2 := by
  constructor <;> rfl

/-- Claim C8 counterexample: not every declared model carries a
`created_at` column with the current-time default — `LiveTrade`
(`live_trades`) declares none (and neither does `IndicatorData`). -/
theorem every_model_created_at_counterexample :
    ¬ (∀ t ∈ allModels,
        (t.columns.any fun c =>
          c.name == "created_at" && c.default == ColDefault.utcnow) = true) := by
  decide

/-- Claim C8 as amended: every declared model except `LiveTrade`
(`live_trades`) and `IndicatorData` (`indicator_data`) declares a
`created_at` column defaulting to the construction time. -/
theorem created_at_default_except_live_trades_indicator_data :
    ∀ t ∈ allModels,
      t.tablename ≠ "live_trades" → t.tablename ≠ "indicator_data" →
      (t.columns.any fun c =>
        c.name == "created_at" && c.default == ColDefault.utcnow) = true := by
  decide

/-- Witness for the amended C8 at the `users` model. -/
theorem created_at_default_witness :
    (users.columns.any fun c =>
      c.name == "created_at" && c.default == ColDefault.utcnow) = true :=
  created_at_default_except_live_trades_indicator_data users (by decide)
    (by decide) (by decide)

/-- Claim C9 counterexample: the `execution_flag` field is a plain
string with no enforced value set, so a `TradePlan` row may carry a
value outside `{Disabled, Enabled, Traded, Exited}`. -/
theorem execution_flag_membership_counterexample :
    ¬ (∀ r : TradePlanRow,
        r.execution_flag = "Disabled" ∨ r.execution_flag = "Enabled" ∨
        r.execution_flag = "Traded" ∨ r.execution_flag = "Exited") := by
  intro h
  have hb := h { trading_symbol := "TCS", instrument := "EQUITY",
                 time_frame := "Daily", trade_direction := "Bullish",
                 trade_type := "Swing", trade_setup := "Breakout",
                 execution_flag := "Bogus", created_at := 0, updated_at := 0 }
  revert hb
  decide

/-- Claim C9 as amended: a `TradePlan` row constructed without an
explicit `execution_flag` carries `"Disabled"`, and the schema records
`"Disabled"` as the declared default of that column; the four-value set
is a documented convention, not a constraint enforced at construction. -/
theorem execution_flag_default_disabled (sym instr tf dir ty setup : String)
    (now : Datetime) :
    (TradePlanRow.mkNew sym instr tf dir ty setup now).execution_flag =
      "Disabled" ∧
    (trade_plan.columns.any fun c =>
      c.name == "execution_flag" &&
        c.default == ColDefault.value "Disabled") = true :=
  ⟨rfl, by decide⟩
